import Mathlib

/-!
Verification development for the science_chatbot backend.

This file gives a shallow embedding of the backend's core components and
proves properties about them:

* `src/backend/persistence.py` — the sqlite-backed conversation store
  (`create_thread`, `save_messages_to_db`, `delete_thread`,
  `update_thread_metadata`, `load_messages_from_db`, `get_thread`).
  The two sqlite tables are modelled as Lean lists of rows; each Python
  store function becomes a pure function on a `DB` value.  A Python
  function that can raise is modelled with `Option` (`none` = the raised
  exception; since `conn.commit()` is only executed after the whole write
  loop, a raising call leaves the database unchanged, which `applyOp`
  reflects by keeping the previous state).
* `src/backend/agents/tools/wikipedia_search.py` / `arxiv_search.py` —
  the retrieval clients, modelled as functions of the single HTTP
  response each of them performs (each Python function issues exactly one
  `client.get`); transport errors, HTTP error statuses and body parse
  failures are explicit constructors/values of the response type.
* `src/backend/agents/graph.py` — the classify → search → generate
  LangGraph pipeline, with the two network-dependent provider calls and
  the language-model invocation taken as function parameters.
* `src/backend/main.py` — the `chat` endpoint flow composed from the
  pieces above.

Conventions: Python dicts with possibly-missing keys become structures of
`Option` fields (`none` = key absent); `dict.get(k, d)` becomes
`(field).getD d`.  Timestamps (`datetime.utcnow().isoformat()`) are passed
in as opaque `String` values.  The JSON serialization of tool-call
payloads (`json.dumps`/`json.loads` of a list of `{name, args, id}`
records) is lossless for the shapes the code produces, so the database
column is modelled as holding the structured value directly.
-/

set_option maxRecDepth 10000

namespace ScienceChatbot

/-! ## Data model: messages and database rows (persistence.py) -/

/-- The langchain message classes that `save_messages_to_db` inspects:
`HumanMessage`, `AIMessage`, `SystemMessage`, `ToolMessage`. -/
inductive MsgClass
  | human
  | ai
  | system
  | tool
deriving DecidableEq, Repr

/-- One tool-call payload entry: `{'name': …, 'args': …, 'id': …}` as
serialized by `save_messages_to_db`.  `args` holds the JSON text of the
argument object. -/
structure ToolCall where
  name : Option String
  args : String
  id : Option String
deriving DecidableEq, Repr

/-- An in-memory langchain message as passed to `save_messages_to_db` /
returned by `load_messages_from_db`.  `tool_calls` is non-empty only for
AI messages (`hasattr(msg, 'tool_calls') and msg.tool_calls`);
`tool_call_id` is `some` only for tool messages
(`hasattr(msg, 'tool_call_id')`). -/
structure InMsg where
  cls : MsgClass
  content : String
  tool_calls : List ToolCall := []
  tool_call_id : Option String := none
deriving DecidableEq, Repr

/-- Model of `msg.__class__.__name__.replace("Message", "").lower()` followed by the
`ai → assistant`, `human → user` renames. -/
def roleOf : MsgClass → String
  | .human => "user"
  | .ai => "assistant"
  | .system => "system"
  | .tool => "tool"

/-- A row of the `messages` table.  The sqlite `AUTOINCREMENT` id column is
omitted: no query in the source reads it (all reads order by
`message_index`). -/
structure MessageRow where
  thread_id : String
  role : String
  content : String
  tool_calls : Option (List ToolCall)
  tool_call_id : Option String
  created_at : String
  message_index : Int
deriving DecidableEq, Repr

/-- A row of the `conversation_threads` table. -/
structure ThreadRow where
  thread_id : String
  title : String
  created_at : String
  updated_at : String
  message_count : Int
  preview : String
deriving DecidableEq, Repr

/-- The two logical tables of `conversations.db`. -/
structure DB where
  threads : List ThreadRow
  messages : List MessageRow
deriving DecidableEq, Repr

def emptyDB : DB := ⟨[], []⟩

/-- Model of `SELECT … FROM messages WHERE thread_id = ?` (insertion order). -/
def threadMessages (db : DB) (tid : String) : List MessageRow :=
  db.messages.filter (fun r => r.thread_id == tid)

/-- Model of `SELECT COUNT(*) FROM messages WHERE thread_id = ?`. -/
def msgCount (db : DB) (tid : String) : Nat :=
  (threadMessages db tid).length

/-- The persisted `message_index` values of a thread, in insertion order. -/
def msgIndices (db : DB) (tid : String) : List Int :=
  (threadMessages db tid).map (fun r => r.message_index)

/-- Model of `SELECT MAX(message_index) FROM messages WHERE thread_id = ?`, with the
`NULL → -1` defaulting done by `save_messages_to_db`. -/
def maxIndex (db : DB) (tid : String) : Int :=
  (msgIndices db tid).foldl max (-1)

def threadExists (db : DB) (tid : String) : Bool :=
  db.threads.any (fun t => t.thread_id == tid)

/-- Model of `get_thread`: the thread-metadata row, or `none` if absent. -/
def get_thread (db : DB) (tid : String) : Option ThreadRow :=
  db.threads.find? (fun t => t.thread_id == tid)

/-! ## Store operations (persistence.py) -/

/-- Model of `create_thread(thread_id, title, preview)`.  The `INSERT` hits the
`thread_id` primary key, so a colliding id raises `IntegrityError`
(modelled as `none`); `preview[:100] if preview else ""` is
`preview.take 100` (the two sides agree when `preview` is empty). -/
def create_thread (db : DB) (thread_id title preview now : String) : Option DB :=
  if threadExists db thread_id then none
  else some { db with
    threads := db.threads ++ [⟨thread_id, title, now, now, 0, preview.take 100⟩] }

/-- The `CHECK (role IN ('user', 'assistant', 'system', 'tool'))` column
constraint of the `messages` table. -/
def validRole (r : String) : Bool :=
  r == "user" || r == "assistant" || r == "system" || r == "tool"

/-- One `INSERT INTO messages …`: fails (sqlite raises) when the role
check or the `UNIQUE (thread_id, message_index)` constraint is violated. -/
def insertMessage (db : DB) (row : MessageRow) : Option DB :=
  if !(validRole row.role) then none
  else if (threadMessages db row.thread_id).any
      (fun r => r.message_index == row.message_index) then none
  else some { db with messages := db.messages ++ [row] }

/-- The insert loop of `save_messages_to_db`; the first failing insert
aborts the whole call (the exception propagates and `conn.commit()` is
never reached). -/
def insertAll : DB → List MessageRow → Option DB
  | db, [] => some db
  | db, r :: rs =>
    match insertMessage db r with
    | none => none
    | some db2 => insertAll db2 rs

/-- Model of `tool_calls_json`: `None` unless the message carries a non-empty
tool-call list. -/
def toolCallsColumn (m : InMsg) : Option (List ToolCall) :=
  if m.tool_calls.isEmpty then none else some m.tool_calls

/-- The row built for one new message in the loop body of
`save_messages_to_db`. -/
def mkRow (tid now : String) (index : Int) (m : InMsg) : MessageRow :=
  ⟨tid, roleOf m.cls, m.content, toolCallsColumn m, m.tool_call_id, now, index⟩

/-- The rows built for the new-message suffix, with
`message_index = max_index + idx + 1` (here: `start + position`). -/
def mkRows (tid now : String) : Int → List InMsg → List MessageRow
  | _, [] => []
  | start, m :: ms => mkRow tid now start m :: mkRows tid now (start + 1) ms

/-- Model of `save_messages_to_db(thread_id, messages)`: reads the current max
index and count for the thread, drops the already-persisted leading
portion of `messages`, and inserts the remainder at the next indices. -/
def save_messages_to_db (db : DB) (thread_id : String) (messages : List InMsg)
    (now : String) : Option DB :=
  let max_index := maxIndex db thread_id
  let existing_count := msgCount db thread_id
  let new_messages := messages.drop existing_count
  insertAll db (mkRows thread_id now (max_index + 1) new_messages)

/-- Model of `delete_thread(thread_id)`: executes only
`DELETE FROM conversation_threads WHERE thread_id = ?` and returns `True`.
No connection in the module ever runs `PRAGMA foreign_keys = ON`, and
sqlite leaves foreign-key enforcement off by default, so the
`ON DELETE CASCADE` clause declared in `_init_db` never fires: rows of the
`messages` table are untouched.  The `except` branch (returning `False`)
is unreachable for a plain delete on this schema. -/
def delete_thread (db : DB) (thread_id : String) : Bool × DB :=
  (true, { db with
    threads := db.threads.filter (fun t => !(t.thread_id == thread_id)) })

/-- Model of `update_thread_metadata(thread_id, message_count, preview)`: `none`
result when the thread is absent; otherwise always refreshes
`updated_at`, and updates `message_count` / `preview[:100]` only when
supplied. -/
def update_thread_metadata (db : DB) (thread_id : String)
    (message_count : Option Int) (preview : Option String) (now : String) :
    Option ThreadRow × DB :=
  if !(threadExists db thread_id) then (none, db)
  else
    let threads2 := db.threads.map (fun t =>
      if t.thread_id == thread_id then
        { t with
          updated_at := now,
          message_count := message_count.getD t.message_count,
          preview := (preview.map (fun p => p.take 100)).getD t.preview }
      else t)
    let db2 : DB := { db with threads := threads2 }
    (get_thread db2 thread_id, db2)

/-! ## Operation sequences and reachable store states -/

/-- The store's mutating operations. -/
inductive StoreOp
  | create (thread_id title preview now : String)
  | save (thread_id : String) (messages : List InMsg) (now : String)
  | delete (thread_id : String)
  | update (thread_id : String) (message_count : Option Int)
      (preview : Option String) (now : String)

/-- Running one operation.  A raising operation (`none`) leaves the
database unchanged: the python sqlite3 connection only commits at the end
of the successful path, and closing an uncommitted connection rolls the
transaction back. -/
def applyOp (db : DB) : StoreOp → DB
  | .create tid title preview now => (create_thread db tid title preview now).getD db
  | .save tid msgs now => (save_messages_to_db db tid msgs now).getD db
  | .delete tid => (delete_thread db tid).2
  | .update tid mc pv now => (update_thread_metadata db tid mc pv now).2

/-- The store state after a sequence of operations on a fresh database. -/
def runOps (ops : List StoreOp) : DB := ops.foldl applyOp emptyDB

/-- Model of `[0, 1, …, n-1]` as `Int` values — the contiguous ascending index run
the spec requires. -/
def intRange (n : Nat) : List Int := (List.range n).map (fun k : Nat => (k : Int))

/-- The contiguity invariant: every thread's persisted indices are exactly
`0, 1, …, count-1`, in order. -/
def Contiguous (db : DB) : Prop :=
  ∀ tid, msgIndices db tid = intRange (msgCount db tid)

/-! ## Basic lemmas about the store model -/

theorem intRange_length (n : Nat) : (intRange n).length = n := by
  rw [intRange, List.length_map, List.length_range]

theorem intRange_succ (n : Nat) : intRange (n + 1) = intRange n ++ [(n : Int)] := by
  simp [intRange, List.range_succ]

theorem msgCount_eq_length (db : DB) (tid : String) :
    msgCount db tid = (msgIndices db tid).length := by
  simp [msgCount, msgIndices]

theorem msgCount_of_indices (db : DB) (tid : String) (n : Nat)
    (h : msgIndices db tid = intRange n) : msgCount db tid = n := by
  rw [msgCount_eq_length, h, intRange_length]

theorem foldl_max_intRange (n : Nat) :
    (intRange n).foldl max (-1) = (n : Int) - 1 := by
  induction n with
  | zero => simp [intRange]
  | succ k ih =>
    rw [intRange_succ, List.foldl_append, ih]
    simp only [List.foldl_cons, List.foldl_nil]
    rw [max_eq_right (by omega)]
    push_cast
    ring

theorem maxIndex_of_contiguous (db : DB) (tid : String) (n : Nat)
    (h : msgIndices db tid = intRange n) : maxIndex db tid = (n : Int) - 1 := by
  rw [maxIndex, h, foldl_max_intRange]

theorem roleOf_valid (c : MsgClass) : validRole (roleOf c) = true := by
  cases c <;> rfl

theorem index_not_present (db : DB) (tid : String) (n : Nat)
    (h : msgIndices db tid = intRange n) :
    (threadMessages db tid).any (fun r => r.message_index == (n : Int)) = false := by
  rw [List.any_eq_false]
  intro r hr
  simp only [beq_iff_eq]
  intro hidx
  have hmem : r.message_index ∈ msgIndices db tid := List.mem_map_of_mem _ hr
  rw [h, hidx] at hmem
  simp only [intRange, List.mem_map, List.mem_range] at hmem
  obtain ⟨j, hj, hje⟩ := hmem
  omega

theorem threadMessages_append_same (db : DB) (tid : String) (row : MessageRow)
    (hrow : row.thread_id = tid) :
    threadMessages { db with messages := db.messages ++ [row] } tid =
      threadMessages db tid ++ [row] := by
  simp [threadMessages, List.filter_append, hrow]

theorem threadMessages_append_other (db : DB) (tid tid2 : String) (row : MessageRow)
    (hrow : row.thread_id = tid) (hne : tid2 ≠ tid) :
    threadMessages { db with messages := db.messages ++ [row] } tid2 =
      threadMessages db tid2 := by
  have : (row.thread_id == tid2) = false := by
    rw [hrow]; exact beq_eq_false_iff_ne.mpr (fun hh => hne hh.symm)
  simp [threadMessages, List.filter_append, this]

theorem insertMessage_next (db : DB) (tid now : String) (n : Nat) (m : InMsg)
    (h : msgIndices db tid = intRange n) :
    insertMessage db (mkRow tid now (n : Int) m) =
      some { db with messages := db.messages ++ [mkRow tid now (n : Int) m] } := by
  unfold insertMessage
  have h1 : validRole (mkRow tid now (n : Int) m).role = true := roleOf_valid m.cls
  have h2 := index_not_present db tid n h
  simp only [mkRow] at h1 h2 ⊢
  rw [h1]
  simp only [Bool.not_true, Bool.false_eq_true, if_false]
  rw [h2]
  simp

theorem msgIndices_after_insert (db : DB) (tid now : String) (n : Nat) (m : InMsg)
    (h : msgIndices db tid = intRange n) :
    msgIndices { db with messages := db.messages ++ [mkRow tid now (n : Int) m] } tid =
      intRange (n + 1) := by
  rw [msgIndices, threadMessages_append_same db tid _ rfl]
  rw [List.map_append]
  rw [show ((threadMessages db tid).map fun r => r.message_index) = msgIndices db tid from rfl]
  rw [h, intRange_succ]
  rfl

/-- Inserting the suffix rows at the next contiguous indices always
succeeds, appends exactly those rows, extends the thread's index run, and
leaves every other thread's messages untouched. -/
theorem insertAll_mkRows (tid now : String) :
    ∀ (ms : List InMsg) (db : DB) (n : Nat),
      msgIndices db tid = intRange n →
      insertAll db (mkRows tid now (n : Int) ms) =
        some { db with messages := db.messages ++ mkRows tid now (n : Int) ms } ∧
      msgIndices { db with messages := db.messages ++ mkRows tid now (n : Int) ms } tid =
        intRange (n + ms.length) ∧
      ∀ tid2, tid2 ≠ tid →
        threadMessages { db with messages := db.messages ++ mkRows tid now (n : Int) ms } tid2 =
          threadMessages db tid2 := by
  intro ms
  induction ms with
  | nil =>
    intro db n h
    refine ⟨?_, ?_, ?_⟩
    · show insertAll db [] = _
      simp [insertAll, mkRows]
    · simpa [mkRows] using h
    · intro tid2 _
      simp [mkRows, threadMessages]
  | cons m ms ih =>
    intro db n h
    have hins := insertMessage_next db tid now n m h
    set db2 : DB := { db with messages := db.messages ++ [mkRow tid now (n : Int) m] } with hdb2
    have h2 : msgIndices db2 tid = intRange (n + 1) := msgIndices_after_insert db tid now n m h
    have hcast : (((n + 1 : Nat) : Int)) = ((n : Int) + 1) := by push_cast; ring
    obtain ⟨ihok, ihidx, ihother⟩ := ih db2 (n + 1) h2
    rw [hcast] at ihok ihidx ihother
    have heq : ({ db with messages := db.messages ++ mkRows tid now (n : Int) (m :: ms) } : DB)
        = { db2 with messages := db2.messages ++ mkRows tid now ((n : Int) + 1) ms } := by
      simp [hdb2, mkRows, List.append_assoc]
    refine ⟨?_, ?_, ?_⟩
    · show insertAll db (mkRow tid now (n : Int) m :: mkRows tid now ((n : Int) + 1) ms) = _
      rw [insertAll, hins]
      show insertAll db2 (mkRows tid now ((n : Int) + 1) ms) = _
      rw [ihok, heq]
    · rw [heq, ihidx]
      congr 1
      simp only [List.length_cons]
      omega
    · intro tid2 hne
      rw [heq, ihother tid2 hne]
      exact threadMessages_append_other db tid tid2 _ rfl hne

/-- Under per-thread contiguity, `save_messages_to_db` succeeds and
appends exactly the rows for the not-yet-persisted suffix, starting at
index `count`. -/
theorem save_messages_spec (db : DB) (tid now : String) (msgs : List InMsg) (n : Nat)
    (h : msgIndices db tid = intRange n) (hc : msgCount db tid = n) :
    save_messages_to_db db tid msgs now =
      some { db with messages := db.messages ++ mkRows tid now (n : Int) (msgs.drop n) } := by
  have hmax := maxIndex_of_contiguous db tid n h
  have hstep := (insertAll_mkRows tid now (msgs.drop n) db n h).1
  simp only [save_messages_to_db, hmax, hc]
  have harith : ((n : Int) - 1 + 1) = (n : Int) := by ring
  rw [harith]
  exact hstep

/-! ## Invariant preservation across store operations -/

theorem contiguous_of_messages_eq (db db2 : DB) (hm : db2.messages = db.messages)
    (h : Contiguous db) : Contiguous db2 := by
  intro tid
  have ht : threadMessages db2 tid = threadMessages db tid := by
    rw [threadMessages, threadMessages, hm]
  rw [msgIndices, msgCount, ht, ← msgIndices, ← msgCount]
  exact h tid

theorem indices_of_threadMessages_eq (db db2 : DB) (tid : String)
    (ht : threadMessages db2 tid = threadMessages db tid) :
    msgIndices db2 tid = msgIndices db tid ∧ msgCount db2 tid = msgCount db tid := by
  rw [msgIndices, msgCount, ht, ← msgIndices, ← msgCount]
  exact ⟨rfl, rfl⟩

theorem applyOp_contiguous (db : DB) (op : StoreOp) (h : Contiguous db) :
    Contiguous (applyOp db op) := by
  cases op with
  | create tid title pv now =>
    rw [applyOp]
    unfold create_thread
    split
    · simpa using h
    · exact contiguous_of_messages_eq db _ rfl h
  | save tid msgs now =>
    have hidx := h tid
    have hsave := save_messages_spec db tid now msgs (msgCount db tid) hidx rfl
    rw [applyOp, hsave]
    simp only [Option.getD_some]
    set rows := mkRows tid now ((msgCount db tid : Nat) : Int)
      (msgs.drop (msgCount db tid)) with hrows
    obtain ⟨-, hidx2, hother⟩ :=
      insertAll_mkRows tid now (msgs.drop (msgCount db tid)) db (msgCount db tid) hidx
    intro tid2
    by_cases hteq : tid2 = tid
    · subst hteq
      rw [hidx2, msgCount_of_indices _ _ _ hidx2]
    · obtain ⟨hi, hc⟩ := indices_of_threadMessages_eq db _ tid2 (hother tid2 hteq)
      rw [hi, hc]
      exact h tid2
  | delete tid =>
    rw [applyOp]
    exact contiguous_of_messages_eq db _ rfl h
  | update tid mc pv now =>
    rw [applyOp]
    unfold update_thread_metadata
    split
    · exact h
    · exact contiguous_of_messages_eq db _ rfl h

theorem emptyDB_contiguous : Contiguous emptyDB := by
  intro tid
  rfl

theorem foldl_contiguous (ops : List StoreOp) :
    ∀ db, Contiguous db → Contiguous (ops.foldl applyOp db) := by
  induction ops with
  | nil => intro db h; exact h
  | cons op ops ih => intro db h; exact ih _ (applyOp_contiguous db op h)

theorem runOps_contiguous (ops : List StoreOp) : Contiguous (runOps ops) :=
  foldl_contiguous ops emptyDB emptyDB_contiguous

/-! ## Append-only behaviour of the store -/

theorem insertMessage_appends (db db2 : DB) (row : MessageRow)
    (h : insertMessage db row = some db2) :
    db2.threads = db.threads ∧ db2.messages = db.messages ++ [row] := by
  unfold insertMessage at h
  split at h
  · exact absurd h (by simp)
  · split at h
    · exact absurd h (by simp)
    · injection h with h
      subst h
      exact ⟨rfl, rfl⟩

theorem insertAll_appends : ∀ (rows : List MessageRow) (db db2 : DB),
    insertAll db rows = some db2 →
    db2.threads = db.threads ∧ ∃ rest, db2.messages = db.messages ++ rest := by
  intro rows
  induction rows with
  | nil =>
    intro db db2 h
    injection h with h
    subst h
    exact ⟨rfl, [], by simp⟩
  | cons r rs ih =>
    intro db db2 h
    rw [insertAll] at h
    cases hins : insertMessage db r with
    | none => rw [hins] at h; cases h
    | some dbm =>
      rw [hins] at h
      obtain ⟨ht1, hm1⟩ := insertMessage_appends db dbm r hins
      obtain ⟨ht2, rest, hm2⟩ := ih dbm db2 h
      exact ⟨ht2.trans ht1, [r] ++ rest, by rw [hm2, hm1, List.append_assoc]⟩

theorem applyOp_appends (db : DB) (op : StoreOp) :
    ∃ rest, (applyOp db op).messages = db.messages ++ rest := by
  cases op with
  | create tid title pv now =>
    refine ⟨[], ?_⟩
    rw [applyOp]
    unfold create_thread
    split <;> simp
  | save tid msgs now =>
    rw [applyOp]
    cases hs : save_messages_to_db db tid msgs now with
    | none => exact ⟨[], by simp⟩
    | some db2 =>
      simp only [save_messages_to_db] at hs
      obtain ⟨-, rest, hm⟩ := insertAll_appends _ db db2 hs
      exact ⟨rest, by simpa using hm⟩
  | delete tid =>
    refine ⟨[], ?_⟩
    rw [applyOp]
    simp [delete_thread]
  | update tid mc pv now =>
    refine ⟨[], ?_⟩
    rw [applyOp]
    unfold update_thread_metadata
    split <;> simp

theorem foldl_appends (ops : List StoreOp) :
    ∀ db, ∃ rest, (ops.foldl applyOp db).messages = db.messages ++ rest := by
  induction ops with
  | nil => intro db; exact ⟨[], by simp⟩
  | cons op ops ih =>
    intro db
    obtain ⟨r1, h1⟩ := applyOp_appends db op
    obtain ⟨r2, h2⟩ := ih (applyOp db op)
    exact ⟨r1 ++ r2, by rw [List.foldl_cons, h2, h1, List.append_assoc]⟩

/-! ## Claim C1: idempotent append -/

/-- Claim C1 (confirmed): Idempotent append: when the sequence `S` is already
fully persisted for thread `tid` (its index run is exactly `0 … |S|-1`),
`save_messages_to_db` with `S` writes nothing; with `S ++ [m]` it writes
exactly the one new row for `m`, at index `previous max + 1` (which equals
`|S|`); and repeating that call on the resulting store writes nothing. -/
theorem save_idempotent_append (db : DB) (tid : String) (S : List InMsg) (m : InMsg)
    (now1 now2 now3 : String)
    (h : msgIndices db tid = intRange S.length) :
    save_messages_to_db db tid S now1 = some db ∧
    save_messages_to_db db tid (S ++ [m]) now2 =
      some { db with messages :=
        db.messages ++ [mkRow tid now2 (maxIndex db tid + 1) m] } ∧
    maxIndex db tid + 1 = (S.length : Int) ∧
    save_messages_to_db
      { db with messages := db.messages ++ [mkRow tid now2 (maxIndex db tid + 1) m] }
      tid (S ++ [m]) now3 =
      some { db with messages :=
        db.messages ++ [mkRow tid now2 (maxIndex db tid + 1) m] } := by
  have hc : msgCount db tid = S.length := msgCount_of_indices db tid _ h
  have hmax : maxIndex db tid = (S.length : Int) - 1 := maxIndex_of_contiguous db tid _ h
  have hmax1 : maxIndex db tid + 1 = (S.length : Int) := by rw [hmax]; ring
  refine ⟨?_, ?_, hmax1, ?_⟩
  · have h1 := save_messages_spec db tid now1 S S.length h hc
    rw [List.drop_length] at h1
    simpa [mkRows] using h1
  · have h2 := save_messages_spec db tid now2 (S ++ [m]) S.length h hc
    rw [List.drop_left] at h2
    rw [hmax1]
    simpa [mkRows] using h2
  · rw [hmax1]
    set db2 : DB :=
      { db with messages := db.messages ++ [mkRow tid now2 (S.length : Int) m] } with hdb2
    have hidx2 : msgIndices db2 tid = intRange (S.length + 1) :=
      msgIndices_after_insert db tid now2 S.length m h
    have hc2 : msgCount db2 tid = S.length + 1 := msgCount_of_indices db2 tid _ hidx2
    have h3 := save_messages_spec db2 tid now3 (S ++ [m]) (S.length + 1) hidx2 hc2
    have hlen : (S ++ [m]).length = S.length + 1 := by simp
    rw [← hlen, List.drop_length] at h3
    simpa [mkRows] using h3

def dbC1 : DB :=
  ⟨[⟨"t1", "New Conversation", "ts0", "ts0", 0, "hi"⟩],
   [⟨"t1", "user", "hi", none, none, "ts0", 0⟩]⟩

def sC1 : List InMsg := [⟨.human, "hi", [], none⟩]

def mC1 : InMsg := ⟨.ai, "hello there", [], none⟩

/-- Witness for C1 at a concrete one-message store. -/
theorem save_idempotent_append_witness :
    save_messages_to_db dbC1 "t1" sC1 "ts1" = some dbC1 ∧
    save_messages_to_db dbC1 "t1" (sC1 ++ [mC1]) "ts2" =
      some { dbC1 with messages :=
        dbC1.messages ++ [mkRow "t1" "ts2" (maxIndex dbC1 "t1" + 1) mC1] } ∧
    maxIndex dbC1 "t1" + 1 = (sC1.length : Int) ∧
    save_messages_to_db
      { dbC1 with messages := dbC1.messages ++ [mkRow "t1" "ts2" (maxIndex dbC1 "t1" + 1) mC1] }
      "t1" (sC1 ++ [mC1]) "ts3" =
      some { dbC1 with messages :=
        dbC1.messages ++ [mkRow "t1" "ts2" (maxIndex dbC1 "t1" + 1) mC1] } :=
  save_idempotent_append dbC1 "t1" sC1 mC1 "ts1" "ts2" "ts3" (by decide)

/-! ## Claim C2: contiguity and append-only invariant -/

/-- Claim C2 (confirmed): After any sequence of store operations from the
empty store, every thread's persisted indices are the contiguous ascending
run `0 … count-1`; and any further operations only append to the messages
table, so no persisted message is ever modified. -/
theorem contiguity_invariant (ops more : List StoreOp) :
    (∀ tid, msgIndices (runOps ops) tid = intRange (msgCount (runOps ops) tid)) ∧
    ∃ rest, (runOps (ops ++ more)).messages = (runOps ops).messages ++ rest := by
  constructor
  · exact runOps_contiguous ops
  · rw [runOps, List.foldl_append]
    exact foldl_appends more (runOps ops)

/-! ## Claim C6: delete does not cascade to messages (code bug) -/

def dbC6 : DB :=
  runOps [.create "t1" "New Conversation" "hello" "ts0",
          .save "t1" [⟨.human, "hello", [], none⟩] "ts1"]

/-- Claim C6 (code_bug): On a store holding thread `t1` with one message,
`delete_thread "t1"` reports success and removes the thread row, but the
message row for `t1` survives: the schema's `ON DELETE CASCADE` never
fires because no connection enables sqlite foreign-key enforcement. -/
theorem delete_thread_leaves_messages :
    (delete_thread dbC6 "t1").1 = true ∧
    get_thread (delete_thread dbC6 "t1").2 "t1" = none ∧
    msgCount (delete_thread dbC6 "t1").2 "t1" = 1 := by
  decide

/-! ## Claim C7: message_count is not maintained by the store -/

def dbC7a : DB := runOps [.create "t1" "New Conversation" "hi" "ts0"]

def dbC7 : DB :=
  runOps [.create "t1" "New Conversation" "hi" "ts0",
          .save "t1" [⟨.human, "hi", [], none⟩] "ts1"]

/-- Claim C7 counterexample: After `create_thread` followed by
`save_messages_to_db` with one message, the thread row still records
`message_count = 0` while one message is persisted: the store operation
did not keep the count consistent. -/
theorem message_count_stale_after_save :
    (get_thread dbC7 "t1").map (fun t => t.message_count) = some 0 ∧
    msgCount dbC7 "t1" = 1 := by
  decide

/-- Claim C7, amended (proved): `save_messages_to_db` leaves the thread table
— in particular `message_count` — completely unchanged; the count only
becomes consistent when a caller passes the new total to
`update_thread_metadata` (as `main.chat` does after each turn). -/
theorem save_does_not_maintain_message_count (db db2 : DB) (tid now : String)
    (msgs : List InMsg) (h : save_messages_to_db db tid msgs now = some db2) :
    db2.threads = db.threads ∧
    (get_thread db2 tid).map (fun t => t.message_count) =
      (get_thread db tid).map (fun t => t.message_count) := by
  simp only [save_messages_to_db] at h
  obtain ⟨ht, -⟩ := insertAll_appends _ db db2 h
  refine ⟨ht, ?_⟩
  rw [get_thread, get_thread, ht]

def dbC7b : DB :=
  { dbC7a with messages := dbC7a.messages ++ [mkRow "t1" "ts1" 0 ⟨.human, "hi", [], none⟩] }

/-- Witness for the amended C7 at a concrete store. -/
theorem save_does_not_maintain_message_count_witness :
    dbC7b.threads = dbC7a.threads ∧
    (get_thread dbC7b "t1").map (fun t => t.message_count) =
      (get_thread dbC7a "t1").map (fun t => t.message_count) :=
  save_does_not_maintain_message_count dbC7a dbC7b "t1" "ts1"
    [⟨.human, "hi", [], none⟩] (by decide)

/-! ## Claim C10: the delete success boolean -/

/-- Claim C10 (confirmed): `delete_thread` returns `True` whenever the
`DELETE` statement executes without raising — for every store state and
every thread id, existing or not; the boolean carries no information about
whether a thread row was actually removed. -/
theorem delete_thread_always_returns_true (db : DB) (tid : String) :
    (delete_thread db tid).1 = true := rfl

/-! ## String helpers

Python string primitives that Lean core implements by well-founded
recursion are re-implemented structurally over `List Char` so that all
definitions evaluate by kernel reduction. -/

/-- ASCII whitespace, for modelling Python `str.strip()`. -/
def isSpaceChar (c : Char) : Bool :=
  c == ' ' || c == '\t' || c == '\n' || c == '\r' || c == '\x0b' || c == '\x0c'

/-- Python `s.strip()`. -/
def strTrim (s : String) : String :=
  String.mk (((s.data.dropWhile isSpaceChar).reverse.dropWhile isSpaceChar).reverse)

/-- Does `pat` occur at the head of `cs`? -/
def charsStartWith : List Char → List Char → Bool
  | [], _ => true
  | _ :: _, [] => false
  | p :: ps, c :: cs => p == c && charsStartWith ps cs

/-- Scans for an occurrence of `pat` anywhere in the list. -/
def charsOccur (pat : List Char) : List Char → Bool
  | [] => charsStartWith pat []
  | c :: cs => charsStartWith pat (c :: cs) || charsOccur pat cs

/-- Python `needle in hay` on strings. -/
def strOccursIn (needle hay : String) : Bool := charsOccur needle.data hay.data

/-- Python `s.replace(pat, rep)` for non-empty `pat`; the fuel argument
(the list length) only serves termination — every step consumes at least
one character. -/
def replaceCharsAux (pat rep : List Char) : Nat → List Char → List Char
  | 0, cs => cs
  | _ + 1, [] => []
  | fuel + 1, c :: cs =>
    if charsStartWith pat (c :: cs) && !pat.isEmpty then
      rep ++ replaceCharsAux pat rep fuel (List.drop (pat.length - 1) cs)
    else c :: replaceCharsAux pat rep fuel cs

def strReplace (s pat rep : String) : String :=
  String.mk (replaceCharsAux pat.data rep.data s.data.length s.data)

/-- Python `s.lower()` (ASCII case folding). -/
def strLower (s : String) : String := String.mk (s.data.map Char.toLower)

/-! ## Retrieval layer: common result shape

Each retrieval function performs exactly one `client.get`; its outcome is
therefore a function of that single HTTP response. -/

/-- A provider result dict.  `none` = key absent (the dicts built by the
two providers populate different key subsets). -/
structure SearchResult where
  title : Option String := none
  pageid : Option Int := none
  snippet : Option String := none
  url : Option String := none
  source : Option String := none
  extract : Option String := none
  authors : Option String := none
  abstract : Option String := none
deriving DecidableEq, Repr

/-- The outcome of the single `client.get` a retrieval function performs.
`transportError` covers connection-level `httpx.HTTPError`s raised before
a status is available; in `ok`, `body = none` means the response body
failed to parse (JSON decode error for Wikipedia, `ET.ParseError` for
arXiv). -/
inductive HttpResponse (α : Type)
  | transportError
  | ok (status : Nat) (body : Option α)
deriving DecidableEq, Repr

/-- Model of `httpx.Response.raise_for_status` raises exactly on 4xx/5xx. -/
def isErrorStatus (status : Nat) : Bool := 400 ≤ status && status ≤ 599

/-! ## Wikipedia search (wikipedia_search.py, `wiki_search`) -/

/-- One element of `data["query"]["search"]`; `none` = key absent. -/
structure WikiItem where
  title : Option String := none
  pageid : Option Int := none
  snippet : Option String := none
deriving DecidableEq, Repr

/-- The parsed JSON body, reduced to
`data.get("query", {}).get("search", [])`. -/
structure WikiPayload where
  search : List WikiItem := []
deriving DecidableEq, Repr

/-- Model of `_page_url_from_title`. -/
def pageUrlFromTitle (title : String) : String :=
  if title == "" then "" else "https://en.wikipedia.org/wiki/" ++ strReplace title " " "_"

/-- Model of `_clean_snippet` tag stripping, `re.sub(r"<[^>]+>", "", s)`: at each
`'<'`, a non-empty run of non-`'>'` characters up to a `'>'` is removed;
an unmatched `'<'` (no closing `'>'`, or `"<>"`) is kept.  `splitAtGt`
returns the segment before the first `'>'` and the remainder after it. -/
def splitAtGt : List Char → Option (List Char × List Char)
  | [] => none
  | c :: cs =>
    if c == '>' then some ([], cs)
    else
      match splitAtGt cs with
      | some (seg, rest) => some (c :: seg, rest)
      | none => none

def stripTagsAux : Nat → List Char → List Char
  | 0, cs => cs
  | _ + 1, [] => []
  | fuel + 1, c :: cs =>
    if c == '<' then
      match splitAtGt cs with
      | some (seg, rest) =>
        if seg.isEmpty then c :: stripTagsAux fuel cs else stripTagsAux fuel rest
      | none => c :: stripTagsAux fuel cs
    else c :: stripTagsAux fuel cs

/-- Model of `html.unescape`, restricted to the five standard entities (the full
named-entity table is not observable by any claim). -/
def htmlUnescape (s : String) : String :=
  strReplace (strReplace (strReplace (strReplace (strReplace s
    "&lt;" "<") "&gt;" ">") "&quot;" "\"") "&#39;" "\x27") "&amp;" "&"

/-- Model of `_clean_snippet`: strip HTML tags, decode entities, strip whitespace. -/
def cleanSnippet (snippet : String) : String :=
  strTrim (htmlUnescape (String.mk (stripTagsAux snippet.data.length snippet.data)))

/-- The result dict built for one search item in `wiki_search`. -/
def wikiResultOfItem (item : WikiItem) : SearchResult :=
  let title := item.title.getD ""
  { title := some title,
    pageid := item.pageid,
    snippet := some (cleanSnippet (item.snippet.getD "")),
    url := some (pageUrlFromTitle title),
    source := some "Wikipedia" }

/-- Model of `wiki_search(query, limit)`: one GET; any `httpx.HTTPError` (transport
or `raise_for_status`) or body-parse failure yields `[]` via the `except`
clauses; otherwise the search items are normalized. -/
def wiki_search (resp : HttpResponse WikiPayload) : List SearchResult :=
  match resp with
  | .transportError => []
  | .ok status body =>
    if isErrorStatus status then []
    else
      match body with
      | none => []
      | some data => data.search.map wikiResultOfItem

/-! ## arXiv search (arxiv_search.py, `search_arxiv`) -/

/-- One `<entry>` of the Atom feed.  Each field is the `.text` of the
corresponding child element; `none` = element absent or `.text is None`.
`authors` holds the `<name>` text of each `<author>` child. -/
structure ArxivEntry where
  title : Option String := none
  summary : Option String := none
  idUrl : Option String := none
  authors : List (Option String) := []
deriving DecidableEq, Repr

structure ArxivFeed where
  entries : List ArxivEntry := []
deriving DecidableEq, Repr

/-- The author-collection loop: keeps each `<name>` whose text is present
and truthy. -/
def entryAuthors (e : ArxivEntry) : List String :=
  e.authors.filterMap (fun n =>
    match n with
    | some s => if s == "" then none else some s
    | none => none)

/-- Model of `elem.text.strip() if elem is not None and elem.text else ""`. -/
def textOrEmpty (t : Option String) : String :=
  match t with
  | some s => if s == "" then "" else strTrim s
  | none => ""

/-- The loop body of `search_arxiv`: an entry is kept only when its title
element is present with truthy text (`if title_elem is not None and
title_elem.text:`); missing authors become `"Unknown"`, missing
summary/id become the empty string. -/
def arxivResultOfEntry (e : ArxivEntry) : Option SearchResult :=
  match e.title with
  | some t =>
    if t == "" then none
    else
      some { title := some (strTrim t),
             authors := some (if (entryAuthors e).isEmpty then "Unknown"
                              else String.intercalate ", " (entryAuthors e)),
             abstract := some (textOrEmpty e.summary),
             url := some (textOrEmpty e.idUrl),
             source := some "arXiv" }
  | none => none

/-- Model of `search_arxiv(query, limit)`: one GET; `httpx.HTTPError`,
`ET.ParseError` and any other exception yield `[]`; otherwise the feed
entries are normalized, dropping title-less entries. -/
def search_arxiv (resp : HttpResponse ArxivFeed) : List SearchResult :=
  match resp with
  | .transportError => []
  | .ok status body =>
    if isErrorStatus status then []
    else
      match body with
      | none => []
      | some feed => feed.entries.filterMap arxivResultOfEntry

/-! ## Claim C4: the claimed backoff policy vs. the code -/

/-- Modelled from the spec (claim C4): one attempt as seen by the claimed
backoff policy — the HTTP outcome plus the server-suggested wait duration
the policy would read from a too-many-requests response.  The source code
has no retry loop and reads no such header; this type exists only to
state the claimed policy for comparison. -/
structure ClaimedAttempt (α : Type) where
  resp : HttpResponse α
  retry_after : Option Nat
deriving DecidableEq, Repr

/-- Modelled from the spec: the wait after a too-many-requests response —
the server-suggested duration clamped to a minimum of 1 time unit, else a
fixed fallback delay. -/
def claimedWait (fallback_delay : Nat) (a : ClaimedAttempt α) : Nat :=
  match a.retry_after with
  | some d => max 1 d
  | none => fallback_delay

/-- Modelled from the spec (claim C4): retry on a too-many-requests signal
up to an attempt ceiling, do not retry on forbidden (empty results), and
otherwise behave like the single-shot client. -/
def claimedBackoffSearch (normalize : α → List SearchResult) :
    Nat → List (ClaimedAttempt α) → List SearchResult
  | 0, _ => []
  | _, [] => []
  | ceiling + 1, a :: rest =>
    match a.resp with
    | .transportError => []
    | .ok status body =>
      if status == 429 then claimedBackoffSearch normalize ceiling rest
      else if status == 403 then []
      else if isErrorStatus status then []
      else
        match body with
        | none => []
        | some payload => normalize payload

def wikiItemC4 : WikiItem := { title := some "Entropy", pageid := some 9 }

def wikiPayloadC4 : WikiPayload := ⟨[wikiItemC4]⟩

/-- Claim C4 counterexample: On a too-many-requests response `wiki_search`
returns empty immediately: it performs exactly one request, waits for
nothing and has no retry loop — while the claimed policy, run on the same
first attempt followed by a successful second attempt, waits the clamped
suggested duration (`max 1 0 = 1`) and returns the second attempt's
results. -/
theorem no_retry_on_too_many_requests :
    wiki_search (.ok 429 (some wikiPayloadC4)) = [] ∧
    claimedBackoffSearch (fun p : WikiPayload => p.search.map wikiResultOfItem) 3
      [⟨.ok 429 none, some 0⟩, ⟨.ok 200 (some wikiPayloadC4), none⟩] =
      [wikiResultOfItem wikiItemC4] ∧
    claimedWait 5 (⟨.ok 429 none, some 0⟩ : ClaimedAttempt WikiPayload) = 1 := by
  decide

/-- Claim C4, amended (proved): The retrieval clients have no backoff: on any
HTTP error signal — too-many-requests (429) and forbidden (403) included —
and on transport errors, both providers return empty results from the one
and only request, without waiting or retrying. -/
theorem http_errors_yield_empty_without_retry (status : Nat)
    (bw : Option WikiPayload) (ba : Option ArxivFeed)
    (h : 400 ≤ status ∧ status ≤ 599) :
    wiki_search (.ok status bw) = [] ∧
    search_arxiv (.ok status ba) = [] ∧
    wiki_search (.transportError : HttpResponse WikiPayload) = [] ∧
    search_arxiv (.transportError : HttpResponse ArxivFeed) = [] := by
  have hs : isErrorStatus status = true := by
    simp [isErrorStatus]
    omega
  refine ⟨?_, ?_, rfl, rfl⟩
  · simp [wiki_search, hs]
  · simp [search_arxiv, hs]

/-- Witness for the amended C4: the two signals the claim names. -/
theorem http_errors_yield_empty_without_retry_witness :
    (wiki_search (.ok 429 (some wikiPayloadC4)) = [] ∧
      search_arxiv (.ok 429 none) = [] ∧
      wiki_search (.transportError : HttpResponse WikiPayload) = [] ∧
      search_arxiv (.transportError : HttpResponse ArxivFeed) = []) ∧
    (wiki_search (.ok 403 (some wikiPayloadC4)) = [] ∧
      search_arxiv (.ok 403 none) = [] ∧
      wiki_search (.transportError : HttpResponse WikiPayload) = [] ∧
      search_arxiv (.transportError : HttpResponse ArxivFeed) = []) :=
  ⟨http_errors_yield_empty_without_retry 429 (some wikiPayloadC4) none (by omega),
   http_errors_yield_empty_without_retry 403 (some wikiPayloadC4) none (by omega)⟩

/-! ## Agent state machine (agents/graph.py)

The LangGraph `StateGraph` wires `classify → search → generate`.  The two
network-dependent provider calls (`search_wikipedia`, `search_arxiv`) and
the language-model invocation (`llm.ainvoke`) are taken as function
parameters: a provider function maps (query, limit) to the results of
that call for this turn, and `llm` maps the assembled message list to
`some content` (success) or `none` (any raised exception). -/

/-- Model of `AgentState` (agents/state.py), a `TypedDict`: a missing key is
`none`; `state.get(k, d)` is `(field).getD d`.  No node ever returns a
changed `messages` value — each returns the very message objects it
received, which LangGraph's `add_messages` reducer merges by id — so
`messages` is constant across a run. -/
structure AgentStateM where
  messages : List InMsg := []
  question : Option String := none
  search_strategy : Option String := none
  wiki_results : Option (List SearchResult) := none
  arxiv_results : Option (List SearchResult) := none
  search_results : Option (List SearchResult) := none
  final_answer : Option String := none
deriving DecidableEq, Repr

/-- The keyword vocabulary of `classify_question`. -/
def paperKeywords : List String :=
  ["paper", "study", "research", "publication", "arxiv", "recent"]

/-- Model of `classify_question`: keyword membership against the lower-cased
question. -/
def classify_question (st : AgentStateM) : AgentStateM :=
  let question := st.question.getD ""
  let needs_papers := paperKeywords.any (fun k => strOccursIn k (strLower question))
  { st with search_strategy := some (if needs_papers then "papers" else "general") }

/-- Model of `search_information`: always query Wikipedia (limit 2); additionally
query arXiv (limit 2) under the `papers` strategy. -/
def search_information (wikiF arxivF : String → Nat → List SearchResult)
    (st : AgentStateM) : AgentStateM :=
  let question := st.question.getD ""
  let wiki_results := wikiF question 2
  let strategy := st.search_strategy.getD "general"
  let arxiv_results := if strategy == "papers" then arxivF question 2 else []
  { st with
    wiki_results := some wiki_results,
    arxiv_results := some arxiv_results,
    search_results := some (wiki_results ++ arxiv_results) }

/-- The no-sources answer of `generate_answer` (two adjacent Python
string literals). -/
def noSourcesAnswer : String :=
  "I couldn\x27t find reliable sources for this question. Please try rephrasing or asking a different question."

/-- The fixed apologetic fallback emitted when `llm.ainvoke` raises. -/
def fallbackAnswer : String :=
  "I ran into an issue generating the answer. Please try again or adjust the question."

/-- Model of `_trim(text, limit=500)`. -/
def trimTo (text : String) (limit : Nat) : String :=
  if limit < text.length then text.take limit ++ "..." else text

/-- Model of `result.get("extract") or result.get("snippet", "")` — Python `or`
falls through on `None` and on the empty string. -/
def wikiSnippetValue (r : SearchResult) : String :=
  match r.extract with
  | some s => if s == "" then r.snippet.getD "" else s
  | none => r.snippet.getD ""

/-- One `[Wi]` context line of `generate_answer`. -/
def wikiLine (idx : Nat) (r : SearchResult) : String :=
  "[W" ++ toString idx ++ "] " ++ r.title.getD "Untitled" ++ " :: " ++
    trimTo (wikiSnippetValue r) 500 ++ " (Source: " ++ r.url.getD "" ++ ")"

/-- One `[Ai]` context line of `generate_answer`. -/
def arxivLine (idx : Nat) (r : SearchResult) : String :=
  "[A" ++ toString idx ++ "] " ++ r.title.getD "Untitled" ++ " :: Authors: " ++
    r.authors.getD "Unknown authors" ++ ". Abstract: " ++
    trimTo (r.abstract.getD "") 500 ++ " (Source: " ++ r.url.getD "" ++ ")"

/-- Model of `enumerate(results, 1)` over a line builder. -/
def numberedLines (f : Nat → SearchResult → String) : Nat → List SearchResult → List String
  | _, [] => []
  | idx, r :: rs => f idx r :: numberedLines f (idx + 1) rs

/-- The `isinstance` chain labelling history lines: `HumanMessage → user`,
`AIMessage → assistant`, anything else → `system`. -/
def historyRole (m : InMsg) : String :=
  match m.cls with
  | .human => "user"
  | .ai => "assistant"
  | .system => "system"
  | .tool => "system"

/-- Model of `SYSTEM_PROMPT` (agents/prompts.py). -/
def SYSTEM_PROMPT : String :=
  "You are a scientific research assistant who synthesizes information from trusted sources.\n\n" ++
  "Goals:\n- Provide concise, precise answers to scientific questions using the supplied context.\n" ++
  "- Cite every factual claim with the provided source identifiers (for example, [W1] or [A2]).\n" ++
  "- If the context is insufficient, state that clearly and suggest the next question to clarify.\n\n" ++
  "Sources:\n- Wikipedia snippets labeled as [W*]\n- arXiv papers labeled as [A*]\n\n" ++
  "Style:\n- Favor short paragraphs or tight bullet points.\n" ++
  "- Keep a \"References\" section listing the cited IDs and their URLs.\n" ++
  "- Use the conversation history if provided; it may later include longer memory.\n\n" ++
  "For example, a proper layout of the answer is  (content is illustrative only):\n" ++
  "<proper layout>\n" ++
  "The Bla bla bla. Also, lorem ipsum dolor sit amet, consectetur adipiscing elit [W1].\n" ++
  "The key points are:\n- Point one with details [A2].\n- Point two with more details.\n\n" ++
  "The conclusion is that...\n\n" ++
  "References:\n[W1] https://en.wikipedia.org/wiki/Example\n[A2] https://arxiv.org/abs/1234.56789\n" ++
  "<proper layout>\n\n"

/-- The `user_prompt` f-string of `generate_answer`. -/
def mkUserPrompt (question history_block context_block : String) : String :=
  "\nUser question:\n" ++ question ++
  "\n\nConversation history (for future memory):\n" ++ history_block ++
  "\n\nAvailable context:\n" ++ context_block ++
  "\n\nInstructions:\n- Synthesize a clear, concise answer using the provided sources.\n" ++
  "- Cite each claim with the source identifiers (e.g., [W1], [A2]).\n" ++
  "- Add a short References section listing the cited IDs with their URLs.\n" ++
  "- If information is missing, say so explicitly and suggest a follow-up question.\n"

/-- Model of `generate_answer`: no results at all → canned no-sources answer;
otherwise assemble the evidence block and conversation history, invoke the
model once, and on any failure emit the fixed apologetic fallback.  The
answer lands in `final_answer`; the `messages` field is not extended. -/
def generate_answer (llm : List InMsg → Option String) (st : AgentStateM) : AgentStateM :=
  let question := st.question.getD ""
  let wiki_results := st.wiki_results.getD []
  let arxiv_results := st.arxiv_results.getD []
  if wiki_results.isEmpty && arxiv_results.isEmpty then
    { st with final_answer := some noSourcesAnswer }
  else
    let context_lines :=
      numberedLines wikiLine 1 wiki_results ++ numberedLines arxivLine 1 arxiv_results
    let context_block :=
      if context_lines.isEmpty then "No external context provided."
      else String.intercalate "\n" context_lines
    let history_messages := st.messages
    let history_lines := history_messages.map (fun m => historyRole m ++ ": " ++ m.content)
    let history_block :=
      if history_lines.isEmpty then "None provided."
      else String.intercalate "\n" history_lines
    let user_prompt := mkUserPrompt question history_block context_block
    let llm_messages :=
      [(⟨.system, SYSTEM_PROMPT, [], none⟩ : InMsg)] ++ history_messages ++
        [⟨.human, user_prompt, [], none⟩]
    match llm llm_messages with
    | some content => { st with final_answer := some content }
    | none => { st with final_answer := some fallbackAnswer }

/-- The compiled graph: `classify → search → generate`. -/
def runAgent (wikiF arxivF : String → Nat → List SearchResult)
    (llm : List InMsg → Option String) (st : AgentStateM) : AgentStateM :=
  generate_answer llm (search_information wikiF arxivF (classify_question st))

/-! ## Message loading (persistence.py, `load_messages_from_db`) -/

/-- Model of `ORDER BY message_index`, as a structural insertion sort (indices are
unique under the store invariant, so any sort agrees with sqlite). -/
def insertSorted (r : MessageRow) : List MessageRow → List MessageRow
  | [] => [r]
  | x :: xs =>
    if r.message_index < x.message_index then r :: x :: xs
    else x :: insertSorted r xs

def sortByIndex : List MessageRow → List MessageRow
  | [] => []
  | r :: rs => insertSorted r (sortByIndex rs)

/-- The reconstruction loop of `load_messages_from_db`: rows with an
unexpected role fall through the `if/elif` chain and are skipped; a tool
row's missing call id defaults to the empty string. -/
def rowToMsg (row : MessageRow) : Option InMsg :=
  if row.role == "user" then some ⟨.human, row.content, [], none⟩
  else if row.role == "assistant" then some ⟨.ai, row.content, row.tool_calls.getD [], none⟩
  else if row.role == "tool" then some ⟨.tool, row.content, [], some (row.tool_call_id.getD "")⟩
  else if row.role == "system" then some ⟨.system, row.content, [], none⟩
  else none

def load_messages_from_db (db : DB) (tid : String) : List InMsg :=
  (sortByIndex (threadMessages db tid)).filterMap rowToMsg

/-! ## The chat endpoint (main.py, `chat`) -/

structure ChatOut where
  reply : String
  thread_id : String
  mode : String
deriving DecidableEq, Repr

/-- Model of `POST /api/chat`.  `new_uuid` stands for the generated `uuid4` string.
A falsy `req.thread_id` (absent or empty) selects the fresh id and
triggers `create_thread` — outside the `try`, so a create failure escapes
the endpoint (`none` outcome).  Inside the `try`: load history, append
the user message, run the agent, take `result['messages'][-1].content` as
the reply, save `result['messages']`, update the metadata.  A save failure
hits the `except` branch, which still answers with an error reply. -/
def chat (db : DB) (message : String) (req_thread_id : Option String)
    (use_agent : Bool) (new_uuid : String)
    (wikiF arxivF : String → Nat → List SearchResult)
    (llm : List InMsg → Option String) (now : String) : Option ChatOut × DB :=
  let given := req_thread_id.getD ""
  let thread_id := if given == "" then new_uuid else given
  let created : Option DB :=
    if given == "" then create_thread db thread_id "New Conversation" (message.take 50) now
    else some db
  match created with
  | none => (none, db)
  | some db1 =>
    let existing_messages := load_messages_from_db db1 thread_id
    let all_messages := existing_messages ++ [⟨.human, message, [], none⟩]
    let result := runAgent wikiF arxivF llm { messages := all_messages }
    let answer := (result.messages.getLast?.map (fun m => m.content)).getD ""
    match save_messages_to_db db1 thread_id result.messages now with
    | none => (some ⟨"Error: save failed", thread_id, "error"⟩, db1)
    | some db2 =>
      let db3 :=
        (update_thread_metadata db2 thread_id (some (result.messages.length : Int))
          (some (message.take 50)) now).2
      (some ⟨answer, thread_id, if use_agent then "agent" else "echo"⟩, db3)

/-! ## Claim C3: the first-turn scenario (code bug) -/

def wikiFC3 : String → Nat → List SearchResult := fun _ _ =>
  [{ title := some "Entropy", pageid := some 9,
     snippet := some "Entropy is a scientific concept",
     url := some "https://en.wikipedia.org/wiki/Entropy",
     source := some "Wikipedia",
     extract := some "Entropy is a scientific concept and measurable physical property." }]

def llmC3 : List InMsg → Option String := fun _ =>
  some "Entropy measures disorder [W1].\n\nReferences:\n[W1] https://en.wikipedia.org/wiki/Entropy"

/-- The first turn: empty store, absent thread id, question
"What is entropy?", a non-empty Wikipedia result and a successful model
call that returns a cited answer. -/
def chatC3 : Option ChatOut × DB :=
  chat emptyDB "What is entropy?" none false "t1" wikiFC3 (fun _ _ => []) llmC3 "ts0"

/-- Claim C3 (code_bug):  The turn does create thread `t1`, but it persists
exactly one message — the user's, no assistant row — and the returned
final message is the user's own question text (no citation marker),
because `generate_answer` leaves the generated answer in `final_answer`
without appending it to `messages`, while `main.chat` replies with
`result['messages'][-1].content` and saves `result['messages']`. -/
theorem chat_first_turn_divergence :
    threadExists chatC3.2 "t1" = true ∧
    msgCount chatC3.2 "t1" = 1 ∧
    (threadMessages chatC3.2 "t1").map (fun r => r.role) = ["user"] ∧
    chatC3.1 = some ⟨"What is entropy?", "t1", "echo"⟩ := by
  decide

/-! ## Claim C5: graceful degradation of retrieval -/

/-- A transport failure, an HTTP error status, or an unparseable body. -/
def wikiFailure : HttpResponse WikiPayload → Prop
  | .transportError => True
  | .ok status body => isErrorStatus status = true ∨ body = none

def arxivFailure : HttpResponse ArxivFeed → Prop
  | .transportError => True
  | .ok status body => isErrorStatus status = true ∨ body = none

/-- Claim C5 (confirmed):  Every transport or parse failure of a single
provider call yields the empty result list (the functions are total, so
nothing propagates past the retrieval layer), and a turn whose retrieval
calls all come back empty still completes, with the non-empty canned
no-sources final message. -/
theorem retrieval_graceful_degradation :
    (∀ r, wikiFailure r → wiki_search r = []) ∧
    (∀ r, arxivFailure r → search_arxiv r = []) ∧
    (∀ (st : AgentStateM) (llm : List InMsg → Option String),
      (runAgent (fun _ _ => []) (fun _ _ => []) llm st).final_answer = some noSourcesAnswer ∧
      noSourcesAnswer ≠ "") := by
  refine ⟨?_, ?_, ?_⟩
  · intro r h
    cases r with
    | transportError => rfl
    | ok status body =>
      rcases h with h | h
      · simp [wiki_search, h]
      · subst h
        simp [wiki_search]
  · intro r h
    cases r with
    | transportError => rfl
    | ok status body =>
      rcases h with h | h
      · simp [search_arxiv, h]
      · subst h
        simp [search_arxiv]
  · intro st llm
    refine ⟨?_, by decide⟩
    simp [runAgent, classify_question, search_information, generate_answer]

/-- Witness for C5 at concrete failing calls and a concrete turn. -/
theorem retrieval_graceful_degradation_witness :
    (wiki_search (.transportError : HttpResponse WikiPayload) = [] ∧
      wiki_search (.ok 500 none) = [] ∧
      search_arxiv (.ok 200 none) = []) ∧
    (runAgent (fun _ _ => []) (fun _ _ => []) (fun _ => none)
        { question := some "What is entropy?" }).final_answer = some noSourcesAnswer :=
  ⟨⟨retrieval_graceful_degradation.1 .transportError trivial,
    retrieval_graceful_degradation.1 (.ok 500 none) (Or.inl (by decide)),
    retrieval_graceful_degradation.2.1 (.ok 200 none) (Or.inr rfl)⟩,
   (retrieval_graceful_degradation.2.2 { question := some "What is entropy?" }
      (fun _ => none)).1⟩

/-! ## Claim C8: synthesis failure falls back to the apology message -/

theorem isEmpty_false_of_ne {α : Type} {l : List α} (h : l ≠ []) : l.isEmpty = false := by
  cases l with
  | nil => exact absurd rfl h
  | cons a as => rfl

/-- Claim C8 (confirmed):  When the model invocation fails (here: the `llm`
capability raising on every input) in a turn that has at least one search
result, `generate_answer` sets the fixed apologetic fallback; and whatever
the state, a failing model still leaves a non-empty final answer (the
fallback or the no-sources message), so every turn produces some final
message. -/
theorem synthesis_failure_fallback (st : AgentStateM)
    (h : st.wiki_results.getD [] ≠ [] ∨ st.arxiv_results.getD [] ≠ []) :
    (generate_answer (fun _ => none) st).final_answer = some fallbackAnswer ∧
    ∀ st2 : AgentStateM,
      ((generate_answer (fun _ => none) st2).final_answer = some fallbackAnswer ∨
        (generate_answer (fun _ => none) st2).final_answer = some noSourcesAnswer) ∧
      (generate_answer (fun _ => none) st2).final_answer.getD "" ≠ "" := by
  constructor
  · have hc : ((st.wiki_results.getD []).isEmpty && (st.arxiv_results.getD []).isEmpty) = false := by
      rcases h with h | h
      · simp [isEmpty_false_of_ne h]
      · simp [isEmpty_false_of_ne h]
    simp [generate_answer, hc]
  · intro st2
    by_cases hc : ((st2.wiki_results.getD []).isEmpty && (st2.arxiv_results.getD []).isEmpty) = true
    · constructor
      · right
        simp [generate_answer, hc]
      · simp [generate_answer, hc]
        decide
    · rw [Bool.not_eq_true] at hc
      constructor
      · left
        simp [generate_answer, hc]
      · simp [generate_answer, hc]
        decide

def stC8 : AgentStateM :=
  { question := some "What is entropy?",
    wiki_results := some [{ title := some "Entropy" }],
    arxiv_results := some [] }

/-- Witness for C8 at a concrete state with one Wikipedia result. -/
theorem synthesis_failure_fallback_witness :
    (generate_answer (fun _ => none) stC8).final_answer = some fallbackAnswer :=
  (synthesis_failure_fallback stC8 (Or.inl (by decide))).1

/-! ## Claim C9: defensive defaulting of result fields -/

def entryC9 : ArxivEntry :=
  { summary := some "An abstract.", idUrl := some "http://arxiv.org/abs/1",
    authors := [some "Alice"] }

/-- Claim C9 counterexample:  An arXiv entry whose title element is missing
is dropped from the results — not returned with the placeholder
`"Untitled"` as the claim states. -/
theorem titleless_entry_dropped :
    search_arxiv (.ok 200 (some ⟨[entryC9]⟩)) = [] := by
  decide

/-- Claim C9, amended (proved):  Entries lacking a title are dropped by the
arXiv parser; a kept entry's missing authors become `"Unknown"` and its
missing abstract/url become the empty string; and at answer-formatting
time a result dict missing the title/authors/abstract keys is rendered
with `"Untitled"`, `"Unknown authors"`, and the empty string. -/
theorem defensive_defaults (t : String) (h : t ≠ "") :
    search_arxiv (.ok 200 (some ⟨[{ title := some t }]⟩)) =
      [{ title := some (strTrim t), authors := some "Unknown", abstract := some "",
         url := some "", source := some "arXiv" }] ∧
    wikiLine 1 {} = "[W1] Untitled ::  (Source: )" ∧
    arxivLine 1 {} = "[A1] Untitled :: Authors: Unknown authors. Abstract:  (Source: )" := by
  have hb : (t == "") = false := beq_eq_false_iff_ne.mpr h
  refine ⟨?_, by decide, by decide⟩
  simp [search_arxiv, arxivResultOfEntry, entryAuthors, textOrEmpty, isErrorStatus, hb]

/-- Witness for the amended C9 at a concrete title. -/
theorem defensive_defaults_witness :
    search_arxiv (.ok 200 (some ⟨[{ title := some "Quantum Paper" }]⟩)) =
      [{ title := some (strTrim "Quantum Paper"), authors := some "Unknown",
         abstract := some "", url := some "", source := some "arXiv" }] ∧
    wikiLine 1 {} = "[W1] Untitled ::  (Source: )" ∧
    arxivLine 1 {} = "[A1] Untitled :: Authors: Unknown authors. Abstract:  (Source: )" :=
  defensive_defaults "Quantum Paper" (by decide)

end ScienceChatbot
